import Mathlib

/-!
Verification of the load-test scenario `locustfile.py`.

The file defines:
  * a step load shape `StepLoadShape.tick` mapping elapsed run time to a
    target-user / spawn-rate pair or a termination signal (`none`);
  * weighted user behaviors, two of which pick a path parameter with
    `random.choice` over a fixed list (`delayed`, `status_check`);
  * a completion hook `on_test_stop` that prints a summary.

Elapsed run time is modelled as a natural number of seconds.  Python's
`int(x // d)` on non-negative values is `Nat` division, and
`int(step_users / 5)` (true division then truncation toward zero) is
`step_users / 5` on `Nat`.
-/

/-- The four class attributes of `StepLoadShape` (`locustfile.py` lines 70-73). -/
structure StepLoadShape where
  step_duration : Nat
  step_users : Nat
  max_steps : Nat
  hold_steps : Nat
deriving DecidableEq, Repr

/-- The attribute values set in the source: `step_duration = 60`,
`step_users = 20`, `max_steps = 6`, `hold_steps = 2`. -/
def defaultShape : StepLoadShape :=
  { step_duration := 60, step_users := 20, max_steps := 6, hold_steps := 2 }

/-- Method `StepLoadShape.tick` (`locustfile.py` lines 75-92), with the elapsed run
time passed explicitly.  `none` models Python's `return None` (stop the test);
`some (target_users, spawn_rate)` models returning the pair. -/
def StepLoadShape.tick (s : StepLoadShape) (run_time : Nat) : Option (Nat × Nat) :=
  let total_ramp_time := s.step_duration * s.max_steps
  if run_time > total_ramp_time + s.hold_steps * s.step_duration then
    none
  else if run_time ≤ total_ramp_time then
    let current_step := run_time / s.step_duration + 1
    let target_users := current_step * s.step_users
    let spawn_rate := max 1 (s.step_users / 5)
    some (target_users, spawn_rate)
  else
    let target_users := s.max_steps * s.step_users
    let spawn_rate := max 1 (s.step_users / 5)
    some (target_users, spawn_rate)

/-- The method `tick` as a state-passing operation on the shape object: the source method
reads `self` but never assigns to it, so the state component is returned
unchanged. -/
def StepLoadShape.tickSt (s : StepLoadShape) (run_time : Nat) :
    Option (Nat × Nat) × StepLoadShape :=
  (s.tick run_time, s)

/-- Model of `random.choice(l)`: picks an element of `l` at a uniformly random index;
the random source is modelled as an arbitrary natural number reduced to a
valid index. -/
def pythonChoice (l : List Nat) (i : Nat) : Nat :=
  l.getD (i % l.length) 0

/-- The candidate list of `status_check` (`locustfile.py` line 57):
`[200, 200, 200, 404, 500]`. -/
def statusChoices : List Nat := [200, 200, 200, 404, 500]

/-- The status code chosen by `status_check` given random source `i`. -/
def statusCode (i : Nat) : Nat := pythonChoice statusChoices i

/-- The path requested by `status_check`: `f"/status/\x7bcode\x7d"`. -/
def statusPath (i : Nat) : String := "/status/" ++ toString (statusCode i)

/-- The candidate list of `delayed` (`locustfile.py` line 36): `[1, 2, 3]`. -/
def delayChoices : List Nat := [1, 2, 3]

/-- The delay chosen by `delayed` given random source `i`. -/
def delayValue (i : Nat) : Nat := pythonChoice delayChoices i

/-- The path requested by `delayed`: `f"/delay/\x7bdelay\x7d"`. -/
def delayPath (i : Nat) : String := "/delay/" ++ toString (delayValue i)

/-- The statistics totals read by the completion hook. -/
structure RunnerStats where
  num_requests : Nat
  num_failures : Nat
  avg_response_time : Rat
deriving DecidableEq, Repr

/-- The harness runner, holding the statistics aggregator. -/
structure Runner where
  stats : RunnerStats
deriving DecidableEq, Repr

/-- The harness environment passed to the completion hook; the runner may be
absent (`None`). -/
structure Environment where
  runner : Option Runner
deriving DecidableEq, Repr

/-- Attribute chain `environment.runner.stats` (`locustfile.py` line 99): attribute
access on `None` raises `AttributeError`. -/
def Environment.runnerStats (env : Environment) : Except String RunnerStats :=
  match env.runner with
  | none => Except.error "AttributeError: NoneType object has no attribute stats"
  | some r => Except.ok r.stats

/-- Listener `on_test_stop` (`locustfile.py` lines 96-104).  Returns the lines printed
and, in the second component, the uncaught exception if one was raised.  The
header is printed first; then line 99 reads `environment.runner.stats`
(raising if the runner is `None`); only then does the `if environment.runner:`
guard protect the three detail lines. -/
def on_test_stop (env : Environment) : List String × Option String :=
  let printed := ["Test finished. Summary:"]
  match env.runnerStats with
  | Except.error msg => (printed, some msg)
  | Except.ok stats =>
    if env.runner.isSome then
      (printed ++
        ["  Total requests: " ++ toString stats.num_requests,
         "  Failures: " ++ toString stats.num_failures,
         "  Avg response time (ms): " ++ toString stats.avg_response_time], none)
    else
      (printed, none)

/-- Unfolding lemma for `tick`: the three branches as written in the source. -/
theorem tick_eq_cases (s : StepLoadShape) (e : Nat) :
    s.tick e =
      if s.step_duration * s.max_steps + s.hold_steps * s.step_duration < e then
        none
      else if e ≤ s.step_duration * s.max_steps then
        some ((e / s.step_duration + 1) * s.step_users, max 1 (s.step_users / 5))
      else
        some (s.max_steps * s.step_users, max 1 (s.step_users / 5)) := rfl

/-- C1 fails as stated: at elapsed 360 the ramp branch (`run_time <=
total_ramp_time`) still fires, so `tick(360)` is `(140, 4)`, not `(120, 4)`. -/
theorem c1_counterexample :
    defaultShape.tick 360 = some (140, 4) ∧ defaultShape.tick 360 ≠ some (120, 4) := by
  decide

/-- C1 (amended): with the default parameters, for every elapsed time e with
361 <= e <= 479, `tick e` returns the pair (120, 4): target users held at the
peak `max_steps * step_users`, spawn rate 4. -/
theorem c1_hold_phase (e : Nat) (h1 : 361 ≤ e) (h2 : e ≤ 479) :
    defaultShape.tick e = some (120, 4) := by
  rw [tick_eq_cases]
  simp only [defaultShape]
  rw [if_neg (by omega), if_neg (by omega)]
  norm_num

/-- Witness for C1: the amended hold-phase theorem applied at elapsed 400. -/
theorem c1_hold_phase_witness : defaultShape.tick 400 = some (120, 4) :=
  c1_hold_phase 400 (by norm_num) (by norm_num)

/-- C2 fails as stated: `tick(480)` does not terminate; the terminate branch
requires `run_time > 480`, so `tick(480)` still returns the hold pair. -/
theorem c2_counterexample :
    defaultShape.tick 480 ≠ none ∧ defaultShape.tick 480 = some (120, 4) := by
  decide

/-- C2 (amended): with the default parameters, `tick e` signals termination
(returns `none`) exactly when the elapsed time is strictly greater than
`step_duration * max_steps + hold_steps * step_duration = 480`; in particular
the first integer elapsed time that terminates is 481, not 480. -/
theorem c2_termination (e : Nat) : defaultShape.tick e = none ↔ 480 < e := by
  rw [tick_eq_cases]
  simp only [defaultShape]
  split_ifs with h1 h2 <;> simp <;> omega

/-- Witness for C2: the termination characterization applied at elapsed 481. -/
theorem c2_termination_witness : defaultShape.tick 481 = none :=
  (c2_termination 481).mpr (by norm_num)

/-- C3 (code bug): when the runner is `None`, the hook prints the header and
then raises `AttributeError` on line 99 (`environment.runner.stats`) before
the `if environment.runner:` guard on line 101 can skip the detail lines. -/
theorem c3_hook_raises_without_runner :
    on_test_stop { runner := none } =
      (["Test finished. Summary:"],
       some "AttributeError: NoneType object has no attribute stats") := rfl

/-- C4: with the default parameters the ramp phase is a staircase 1-indexed by
`floor(elapsed / step_duration) + 1`: tick(0) = (20, 4), tick(59) = (20, 4),
tick(60) = (40, 4), tick(359) = (120, 4), and in general for elapsed e <= 360,
`tick e = ((e / 60 + 1) * 20, 4)`. -/
theorem c4_ramp_staircase :
    defaultShape.tick 0 = some (20, 4) ∧
    defaultShape.tick 59 = some (20, 4) ∧
    defaultShape.tick 60 = some (40, 4) ∧
    defaultShape.tick 359 = some (120, 4) ∧
    ∀ e : Nat, e ≤ 360 → defaultShape.tick e = some ((e / 60 + 1) * 20, 4) := by
  refine ⟨by decide, by decide, by decide, by decide, ?_⟩
  intro e he
  rw [tick_eq_cases]
  simp only [defaultShape]
  rw [if_neg (by omega), if_pos (by omega)]
  norm_num

/-- Witness for C4: the ramp formula applied at elapsed 100 (step 2). -/
theorem c4_ramp_staircase_witness :
    defaultShape.tick 100 = some ((100 / 60 + 1) * 20, 4) :=
  c4_ramp_staircase.2.2.2.2 100 (by norm_num)

/-- C5 fails as stated: with max_steps = 0 and the other parameters positive
(step_duration = 60, step_users = 20, hold_steps = 2), the non-terminating
tick at elapsed 0 takes the ramp branch and returns target 20, not 0. -/
theorem c5_counterexample :
    (StepLoadShape.tick ⟨60, 20, 0, 2⟩ 0).map Prod.fst = some 20 ∧
    (StepLoadShape.tick ⟨60, 20, 0, 2⟩ 0).map Prod.fst ≠ some 0 := by
  decide

/-- C5 (amended): with step_users = 0 (other parameters positive), every
non-terminating tick returns target 0 (and spawn rate 1) without error; with
max_steps = 0 and step_users > 0, every non-terminating tick at elapsed > 0
returns target 0, but at elapsed 0 the ramp branch returns target step_users. -/
theorem c5_zero_config (d u m h e : Nat) (hd : 0 < d) (hh : 0 < h) :
    ((StepLoadShape.tick ⟨d, 0, m, h⟩ e).isSome →
      StepLoadShape.tick ⟨d, 0, m, h⟩ e = some (0, 1)) ∧
    (0 < u → 0 < e → (StepLoadShape.tick ⟨d, u, 0, h⟩ e).isSome →
      StepLoadShape.tick ⟨d, u, 0, h⟩ e = some (0, max 1 (u / 5))) ∧
    (0 < u → StepLoadShape.tick ⟨d, u, 0, h⟩ 0 = some (u, max 1 (u / 5))) := by
  refine ⟨?_, ?_, ?_⟩
  · intro hs
    rw [tick_eq_cases] at hs ⊢
    split_ifs at hs ⊢ <;> simp_all
  · intro hu he hs
    rw [tick_eq_cases] at hs ⊢
    split_ifs at hs ⊢ <;> simp_all
  · intro hu
    rw [tick_eq_cases]
    rw [if_neg (by omega), if_pos (by omega)]
    simp [Nat.zero_div, Nat.div_eq_of_lt hd]

/-- Witness for C5: the amended theorem applied with the default parameters,
step_users zeroed out, at elapsed 50. -/
theorem c5_zero_config_witness : StepLoadShape.tick ⟨60, 0, 6, 2⟩ 50 = some (0, 1) :=
  (c5_zero_config 60 20 6 2 50 (by norm_num) (by norm_num)).1 (by decide)

/-- C6: whenever `tick` returns a pair (any parameters, ramp or hold branch),
the spawn rate equals `max 1 (step_users / 5)`; in particular it is at least 1,
and with step_users = 20 it equals 4. -/
theorem c6_spawn_rate (s : StepLoadShape) (e t r : Nat)
    (h : s.tick e = some (t, r)) :
    r = max 1 (s.step_users / 5) ∧ 1 ≤ r ∧ (s.step_users = 20 → r = 4) := by
  rw [tick_eq_cases] at h
  split_ifs at h
  all_goals
    simp only [Option.some.injEq, Prod.mk.injEq] at h
    obtain ⟨ht, hr⟩ := h
    subst hr
    exact ⟨rfl, le_max_left 1 _, fun hu => by rw [hu]; decide⟩

/-- Witness for C6: the spawn-rate theorem applied to the default shape at
elapsed 0, whose pair is (20, 4). -/
theorem c6_spawn_rate_witness : (4 : Nat) = max 1 (defaultShape.step_users / 5) :=
  (c6_spawn_rate defaultShape 0 20 4 (by decide)).1

/-- C7: `tick` is pure and deterministic: as a state-passing operation it
leaves the shape object unchanged, a second call after a first call returns the
same answer, and outputs agree on equal elapsed inputs. -/
theorem c7_tick_pure (s : StepLoadShape) (e : Nat) :
    (s.tickSt e).2 = s ∧
    ((s.tickSt e).2.tickSt e).1 = (s.tickSt e).1 ∧
    ∀ e2 : Nat, e = e2 → s.tick e = s.tick e2 :=
  ⟨rfl, rfl, fun _ h => by rw [h]⟩

/-- Witness for C7: purity applied to the default shape at elapsed 100. -/
theorem c7_tick_pure_witness : defaultShape.tick 100 = defaultShape.tick 100 :=
  (c7_tick_pure defaultShape 100).2.2 100 rfl

/-- C8: the status-check candidate list is the five-element multiset with 200
three times, 404 once, 500 once; uniform choice over it yields 200 with
probability 3/5 and 404, 500 with probability 1/5 each, and whatever the
random source yields the chosen code lies in {200, 404, 500}. -/
theorem c8_status_multiset :
    statusChoices.count 200 = 3 ∧
    statusChoices.count 404 = 1 ∧
    statusChoices.count 500 = 1 ∧
    statusChoices.length = 5 ∧
    (statusChoices.count 200 : ℚ) / statusChoices.length = 3 / 5 ∧
    (statusChoices.count 404 : ℚ) / statusChoices.length = 1 / 5 ∧
    (statusChoices.count 500 : ℚ) / statusChoices.length = 1 / 5 ∧
    ∀ i : Nat, statusCode i ∈ ([200, 404, 500] : List Nat) := by
  refine ⟨by decide, by decide, by decide, by decide,
    by norm_num [statusChoices], by norm_num [statusChoices],
    by norm_num [statusChoices], ?_⟩
  intro i
  have h : i % 5 = 0 ∨ i % 5 = 1 ∨ i % 5 = 2 ∨ i % 5 = 3 ∨ i % 5 = 4 := by omega
  rcases h with h | h | h | h | h <;>
    simp [statusCode, pythonChoice, statusChoices, h]

/-- C9: whatever the random source yields, the delay chosen by the delayed
behavior lies in {1, 2, 3} and the requested path is "/delay/" followed by
that in-range value — never missing or out of range. -/
theorem c9_delay_in_range (i : Nat) :
    delayValue i ∈ ([1, 2, 3] : List Nat) ∧
    ∃ d, d ∈ ([1, 2, 3] : List Nat) ∧ delayValue i = d ∧
      delayPath i = "/delay/" ++ toString d := by
  have h : i % 3 = 0 ∨ i % 3 = 1 ∨ i % 3 = 2 := by omega
  refine ⟨?_, delayValue i, ?_, rfl, rfl⟩ <;>
    rcases h with h | h | h <;>
      simp [delayValue, pythonChoice, delayChoices, h]

/-- C10: at elapsed exactly 360 the ramp branch fires and returns
`(max_steps + 1) * step_users = 140` users, one step above the hold peak; for
360 < e <= 480 the hold branch returns 120; hence the target is not
monotonically non-decreasing in elapsed time. -/
theorem c10_boundary_step (e : Nat) (h1 : 360 < e) (h2 : e ≤ 480) :
    defaultShape.tick 360 = some (140, 4) ∧
    140 = (defaultShape.max_steps + 1) * defaultShape.step_users ∧
    defaultShape.tick e = some (120, 4) ∧
    ¬ (∀ e1 e2 t1 r1 t2 r2 : Nat, e1 ≤ e2 →
        defaultShape.tick e1 = some (t1, r1) →
        defaultShape.tick e2 = some (t2, r2) → t1 ≤ t2) := by
  refine ⟨by decide, by decide, ?_, ?_⟩
  · rw [tick_eq_cases]
    simp only [defaultShape]
    rw [if_neg (by omega), if_neg (by omega)]
    norm_num
  · intro hmono
    have := hmono 360 361 140 4 120 4 (by omega) (by decide) (by decide)
    omega

/-- Witness for C10: the boundary theorem applied at elapsed 361. -/
theorem c10_boundary_step_witness : defaultShape.tick 361 = some (120, 4) :=
  (c10_boundary_step 361 (by norm_num) (by norm_num)).2.2.1
